import Mathlib

/-!
Shallow embedding of the request-authorization and data-consistency core of
the online-learning-platform API (backend/server.js): data model, audit
logger, fixed-window rate limiter, token-authentication pipeline, and the
mutating route handlers for courses, lessons, enrollments and progress.
Timestamps are modelled as natural numbers; the SQLite tables are modelled
as lists of rows; the opaque cryptographic primitives (JWT verification,
bcrypt comparison) are parameters of the functions that call them.
-/

namespace LearningPlatform

/-- Roles as constrained by the users table CHECK clause. -/
inductive Role
  | instructor
  | student
deriving DecidableEq, Repr

/-- Row of the users table (id, email UNIQUE, password_hash, role). -/
structure User where
  id : Nat
  email : String
  password_hash : String
  role : Role
deriving DecidableEq, Repr

/-- Row of the courses table. -/
structure Course where
  id : Nat
  title : String
  description : String
  instructor_id : Nat
  updated_at : Nat
deriving DecidableEq, Repr

/-- Row of the lessons table. -/
structure Lesson where
  id : Nat
  course_id : Nat
  title : String
  content : String
  order_index : Nat
  updated_at : Nat
deriving DecidableEq, Repr

/-- Row of the enrollments table (UNIQUE(student_id, course_id)). -/
structure Enrollment where
  id : Nat
  student_id : Nat
  course_id : Nat
deriving DecidableEq, Repr

/-- Row of the progress table (UNIQUE(student_id, lesson_id)). -/
structure Progress where
  id : Nat
  student_id : Nat
  lesson_id : Nat
  completed : Bool
  completed_at : Option Nat
deriving DecidableEq, Repr

/-- Row of the audit_log table; user_id is nullable. -/
structure AuditEntry where
  user_id : Option Nat
  action : String
  resource_type : String
  resource_id : Option Nat
  ip_address : String
deriving DecidableEq, Repr

/-- The database state: one list of rows per table. -/
structure DB where
  users : List User
  courses : List Course
  lessons : List Lesson
  enrollments : List Enrollment
  progress : List Progress
  audit_log : List AuditEntry
deriving DecidableEq, Repr

/-- SELECT id, email, role FROM users WHERE id = ? -/
def findUserById (db : DB) (uid : Nat) : Option User :=
  db.users.find? (fun u => u.id == uid)

/-- SELECT * FROM users WHERE email = ? -/
def findUserByEmail (db : DB) (email : String) : Option User :=
  db.users.find? (fun u => u.email == email)

/-- SELECT * FROM courses WHERE id = ? -/
def findCourseById (db : DB) (cid : Nat) : Option Course :=
  db.courses.find? (fun c => c.id == cid)

/-- SELECT * FROM lessons WHERE id = ? -/
def findLessonById (db : DB) (lid : Nat) : Option Lesson :=
  db.lessons.find? (fun l => l.id == lid)

/-- SELECT * FROM enrollments WHERE student_id = ? AND course_id = ? -/
def findEnrollment (db : DB) (sid cid : Nat) : Option Enrollment :=
  db.enrollments.find? (fun e => e.student_id == sid && e.course_id == cid)

/-- SELECT * FROM progress WHERE student_id = ? AND lesson_id = ? -/
def findProgress (db : DB) (sid lid : Nat) : Option Progress :=
  db.progress.find? (fun p => p.student_id == sid && p.lesson_id == lid)

/-- The auditLog helper (server.js 166-175): tries to INSERT one row into
audit_log; a failure of the underlying write (modelled by the writeFails
flag) is caught inside the function, so the function always returns and
on failure leaves the database unchanged. -/
def auditLog (writeFails : Bool) (userId : Option Nat) (action resourceType : String)
    (resourceId : Option Nat) (ipAddress : String) (db : DB) : DB :=
  if writeFails then db
  else { db with audit_log := db.audit_log ++
          [{ user_id := userId, action := action, resource_type := resourceType,
             resource_id := resourceId, ip_address := ipAddress }] }

/-- RATE_LIMIT_WINDOW_MS = 15 * 60 * 1000. -/
def RATE_LIMIT_WINDOW_MS : Nat := 15 * 60 * 1000

/-- RATE_LIMIT_MAX_REQUESTS = 100. -/
def RATE_LIMIT_MAX_REQUESTS : Nat := 100

/-- Per-client entry of the rateLimiters map. -/
structure LimiterData where
  count : Nat
  resetTime : Nat
deriving DecidableEq, Repr

/-- The perClientRateLimit middleware (server.js 144-163) for one client
key: given the current time and the client's map entry (none when absent),
it resets the entry when the window has expired, increments the counter,
and either rejects with 429 (recording an audit entry with null user id)
or admits the request.  Returns (some 429) on rejection and none on
admission, together with the updated map entry and database. -/
def perClientRateLimit (now : Nat) (entry : Option LimiterData) (db : DB)
    (clientKey : String) : Option Nat × LimiterData × DB :=
  let limiterData : LimiterData :=
    match entry with
    | none => { count := 0, resetTime := now }
    | some d =>
      if now - d.resetTime > RATE_LIMIT_WINDOW_MS then { count := 0, resetTime := now } else d
  let limiterData := { limiterData with count := limiterData.count + 1 }
  if limiterData.count > RATE_LIMIT_MAX_REQUESTS then
    (some 429, limiterData, auditLog false none "RATE_LIMIT_EXCEEDED" "request" none clientKey db)
  else
    (none, limiterData, db)

/-- Run a sequence of requests (given by their arrival times) through the
rate limiter for one client key, collecting whether each was admitted. -/
def runLimiter (clientKey : String) : List Nat → Option LimiterData → DB →
    List Bool × Option LimiterData × DB
  | [], entry, db => ([], entry, db)
  | now :: rest, entry, db =>
    let step := perClientRateLimit now entry db clientKey
    let tail := runLimiter clientKey rest (some step.2.1) step.2.2
    (step.1.isNone :: tail.1, tail.2.1, tail.2.2)

/-- The decoded claims of a bearer token; either field may be absent from
the payload (checked with JavaScript truthiness by the middleware).  The
role claim is kept as the raw string found in the token. -/
structure TokenPayload where
  userId : Option Nat
  roleClaim : Option String
deriving DecidableEq, Repr

/-- Outcome of jwt.verify, treated as an opaque primitive: a decoded
payload, an expiry error, or any other verification error. -/
inductive VerifyResult
  | ok (payload : TokenPayload)
  | expiredErr
  | invalidErr
deriving DecidableEq, Repr

/-- JavaScript String.prototype.startsWith over the character sequence. -/
def stringStartsWith (s pre : String) : Bool :=
  pre.data.isPrefixOf s.data

/-- JavaScript String.prototype.substring(n) over the character sequence. -/
def stringDrop (s : String) (n : Nat) : String :=
  ⟨s.data.drop n⟩

/-- Extraction of the bearer token from the Authorization header
(server.js 232-233): the header must be present and start with the
literal "Bearer "; the token is the rest of the header (substring(7)). -/
def extractToken (authHeader : Option String) : Option String :=
  match authHeader with
  | none => none
  | some h => if stringStartsWith h "Bearer " then some (stringDrop h 7) else none

/-- The authenticateToken middleware (server.js 231-263): extract the
token, verify it (verification is the opaque parameter), require truthy
userId and role claims, then re-load the user from the users table by the
token's subject id; the freshly loaded row becomes req.user.  Every
failure is a 401. -/
def authenticateToken (verify : String → VerifyResult) (db : DB)
    (authHeader : Option String) : Except Nat User :=
  match extractToken authHeader with
  | none => .error 401
  | some token =>
    match verify token with
    | .expiredErr => .error 401
    | .invalidErr => .error 401
    | .ok payload =>
      match payload.userId, payload.roleClaim with
      | some uid, some r =>
        if uid == 0 || r == "" then .error 401
        else
          match findUserById db uid with
          | none => .error 401
          | some user => .ok user
      | some _, none => .error 401
      | none, _ => .error 401

/-- The requireRole middleware factory (server.js 265-272): 403 unless
req.user is set and its role is in the allowed list. -/
def requireRole (roles : List Role) (user : Option User) : Except Nat User :=
  match user with
  | none => .error 403
  | some u => if roles.contains u.role then .ok u else .error 403

/-- Composition of authenticateToken and requireRole as the request
pipeline applies them on a protected route. -/
def authThenRole (verify : String → VerifyResult) (roles : List Role) (db : DB)
    (authHeader : Option String) : Except Nat User :=
  match authenticateToken verify db authHeader with
  | .error s => .error s
  | .ok u => requireRole roles (some u)

/-- The POST /api/auth/login handler (server.js 341-379): look the user up
by email (401 when absent, with no audit write), compare the password with
the opaque checkPw primitive, audit LOGIN_FAILED / LOGIN_SUCCESS, and
answer 401 / 200. -/
def loginHandler (checkPw : String → String → Bool) (writeFails : Bool) (db : DB)
    (email password ip : String) : Nat × DB :=
  match findUserByEmail db email with
  | none => (401, db)
  | some user =>
    if checkPw password user.password_hash then
      (200, auditLog writeFails (some user.id) "LOGIN_SUCCESS" "user" (some user.id) ip db)
    else
      (401, auditLog writeFails (some user.id) "LOGIN_FAILED" "user" (some user.id) ip db)

/-- The UPDATE courses statement built by the PUT handler: applied to the
row with the given id, it overwrites exactly the supplied fields and
touches updated_at. -/
def updateCourseRow (title description : Option String) (now cid : Nat) (c : Course) : Course :=
  if c.id == cid then
    { c with title := title.getD c.title, description := description.getD c.description,
             updated_at := now }
  else c

/-- The PUT /api/courses/:id handler (server.js 467-521), after the
pipeline authenticated an instructor: load the course (404 when absent),
check ownership (403), reject an empty field set (400), otherwise update
the supplied fields plus updated_at, audit COURSE_UPDATED, and return the
freshly reloaded course. -/
def putCourseHandler (writeFails : Bool) (db : DB) (user : User) (cid : Nat)
    (title description : Option String) (ip : String) (now : Nat) :
    Nat × Option Course × DB :=
  match findCourseById db cid with
  | none => (404, none, db)
  | some course =>
    if course.instructor_id != user.id then (403, none, db)
    else if title.isNone && description.isNone then (400, none, db)
    else
      let db1 := { db with courses := db.courses.map (updateCourseRow title description now cid) }
      let db2 := auditLog writeFails (some user.id) "COURSE_UPDATED" "course" (some cid) ip db1
      (200, findCourseById db2 cid, db2)

/-- The DELETE /api/courses/:id handler (server.js 523-550): load the
course (404), check ownership (403), delete the course (the storage
engine cascades to its lessons, their progress rows, and its
enrollments), audit COURSE_DELETED, answer 204. -/
def deleteCourseHandler (writeFails : Bool) (db : DB) (user : User) (cid : Nat)
    (ip : String) : Nat × DB :=
  match findCourseById db cid with
  | none => (404, db)
  | some course =>
    if course.instructor_id != user.id then (403, db)
    else
      let gone := db.lessons.filter (fun l => l.course_id == cid)
      let db1 := { db with
        courses := db.courses.filter (fun c => c.id != cid),
        lessons := db.lessons.filter (fun l => l.course_id != cid),
        enrollments := db.enrollments.filter (fun e => e.course_id != cid),
        progress := db.progress.filter (fun p => !(gone.any (fun l => l.id == p.lesson_id))) }
      (204, auditLog writeFails (some user.id) "COURSE_DELETED" "course" (some cid) ip db1)

/-- The UPDATE lessons statement built by the PUT handler. -/
def updateLessonRow (title content : Option String) (order_index : Option Nat)
    (now lid : Nat) (l : Lesson) : Lesson :=
  if l.id == lid then
    { l with title := title.getD l.title, content := content.getD l.content,
             order_index := order_index.getD l.order_index, updated_at := now }
  else l

/-- The PUT /api/lessons/:id handler (server.js 644-705): load the lesson
(404), load its parent course (a dangling course_id would throw in the
handler and surface as 500), check ownership via the parent course (403),
reject an empty field set (400), otherwise update, audit LESSON_UPDATED,
and return the reloaded lesson. -/
def putLessonHandler (writeFails : Bool) (db : DB) (user : User) (lid : Nat)
    (title content : Option String) (order_index : Option Nat) (ip : String) (now : Nat) :
    Nat × Option Lesson × DB :=
  match findLessonById db lid with
  | none => (404, none, db)
  | some lesson =>
    match findCourseById db lesson.course_id with
    | none => (500, none, db)
    | some course =>
      if course.instructor_id != user.id then (403, none, db)
      else if title.isNone && content.isNone && order_index.isNone then (400, none, db)
      else
        let db1 := { db with lessons := db.lessons.map (updateLessonRow title content order_index now lid) }
        let db2 := auditLog writeFails (some user.id) "LESSON_UPDATED" "lesson" (some lid) ip db1
        (200, findLessonById db2 lid, db2)

/-- The INSERT INTO enrollments statement under the table's
UNIQUE(student_id, course_id) constraint: the storage engine rejects the
insert when a row with the same key pair is already present. -/
def insertEnrollmentUnique (db : DB) (row : Enrollment) : Except String DB :=
  if db.enrollments.any (fun e => e.student_id == row.student_id && e.course_id == row.course_id) then
    .error "SQLITE_CONSTRAINT_UNIQUE"
  else .ok { db with enrollments := db.enrollments ++ [row] }

/-- The POST /api/enrollments handler (server.js 739-778), after the
pipeline authenticated a student.  Each awaited storage call is a
suspension point, so the database seen by the INSERT (insertDb) may
differ from the snapshot seen by the course lookup and the duplicate
pre-check (checkDb); a sequential request has checkDb = insertDb.
Course absent: 404.  Duplicate found by the pre-check: 409.  A uniqueness
constraint violation thrown by the INSERT is caught by the handler's
generic catch block, which answers 500.  Otherwise the row is inserted,
ENROLLMENT_CREATED is audited, and the handler answers 201. -/
def createEnrollmentHandler (writeFails : Bool) (checkDb insertDb : DB) (user : User)
    (course_id : Nat) (ip : String) (newId : Nat) : Nat × DB :=
  match findCourseById checkDb course_id with
  | none => (404, insertDb)
  | some _ =>
    match findEnrollment checkDb user.id course_id with
    | some _ => (409, insertDb)
    | none =>
      match insertEnrollmentUnique insertDb
          { id := newId, student_id := user.id, course_id := course_id } with
      | .error _ => (500, insertDb)
      | .ok db1 =>
        (201, auditLog writeFails (some user.id) "ENROLLMENT_CREATED" "enrollment" (some newId) ip db1)

/-- The DELETE /api/enrollments/:id handler (server.js 807-833): the row
is looked up by id AND student_id together (404 when no such row), then
deleted by id, ENROLLMENT_DELETED is audited, and the handler answers 204. -/
def deleteEnrollmentHandler (writeFails : Bool) (db : DB) (user : User) (eid : Nat)
    (ip : String) : Nat × DB :=
  match db.enrollments.find? (fun e => e.id == eid && e.student_id == user.id) with
  | none => (404, db)
  | some _ =>
    let db1 := { db with enrollments := db.enrollments.filter (fun e => e.id != eid) }
    (204, auditLog writeFails (some user.id) "ENROLLMENT_DELETED" "enrollment" (some eid) ip db1)

/-- The UPDATE progress statement built by the upsert: on the row keyed by
(student_id, lesson_id) it sets completed and stamps completed_at with
the current time when completed is true, null otherwise. -/
def setProgressRow (completed : Bool) (now sid lid : Nat) (p : Progress) : Progress :=
  if p.student_id == sid && p.lesson_id == lid then
    { p with completed := completed, completed_at := if completed then some now else none }
  else p

/-- The POST /api/progress handler (server.js 836-895), after the pipeline
authenticated a student: load the lesson (404), require an enrollment
linking the student to the lesson's course (403), then upsert the row
keyed by (student_id, lesson_id) — UPDATE when it exists, INSERT (with
storage-generated id newId) when it does not — audit PROGRESS_UPDATED,
and return the freshly reloaded progress row. -/
def postProgressHandler (writeFails : Bool) (db : DB) (user : User) (lesson_id : Nat)
    (completed : Bool) (now : Nat) (ip : String) (newId : Nat) :
    Nat × Option Progress × DB :=
  match findLessonById db lesson_id with
  | none => (404, none, db)
  | some lesson =>
    match findEnrollment db user.id lesson.course_id with
    | none => (403, none, db)
    | some _ =>
      match findProgress db user.id lesson_id with
      | some existing =>
        let db1 := { db with progress := db.progress.map (setProgressRow completed now user.id lesson_id) }
        let db2 := auditLog writeFails (some user.id) "PROGRESS_UPDATED" "progress" (some existing.id) ip db1
        (200, findProgress db2 user.id lesson_id, db2)
      | none =>
        let row : Progress := { id := newId, student_id := user.id, lesson_id := lesson_id,
                                completed := completed,
                                completed_at := if completed then some now else none }
        let db1 := { db with progress := db.progress ++ [row] }
        let db2 := auditLog writeFails (some user.id) "PROGRESS_UPDATED" "progress" (some newId) ip db1
        (200, findProgress db2 user.id lesson_id, db2)

/-- One progress-upsert request, for reasoning about sequences of them. -/
structure ProgressOp where
  user : User
  lesson_id : Nat
  completed : Bool
  now : Nat
  newId : Nat
deriving Repr

/-- Apply a sequence of progress-upsert requests to the database. -/
def applyProgressOps (writeFails : Bool) (ip : String) : List ProgressOp → DB → DB
  | [], db => db
  | op :: rest, db =>
    applyProgressOps writeFails ip rest
      (postProgressHandler writeFails db op.user op.lesson_id op.completed op.now ip op.newId).2.2

/-- The domain (non-audit) part of the database state. -/
def domainState (db : DB) :
    List User × List Course × List Lesson × List Enrollment × List Progress :=
  (db.users, db.courses, db.lessons, db.enrollments, db.progress)

/-- The invariant of the progress table stated by the data model:
completed_at is set (non-null) exactly when completed is true. -/
def progressInvariant (p : Progress) : Prop :=
  p.completed_at.isSome = p.completed

instance (p : Progress) : Decidable (progressInvariant p) := by
  unfold progressInvariant; infer_instance

/-- A full protected instructor route as the pipeline wires it for
PUT /api/courses/:id: authenticate, role-gate, then the handler; an
authentication or role failure answers with its status and leaves the
database untouched. -/
def putCourseRoute (verify : String → VerifyResult) (writeFails : Bool) (db : DB)
    (authHeader : Option String) (cid : Nat) (title description : Option String)
    (ip : String) (now : Nat) : Nat × DB :=
  match authThenRole verify [Role.instructor] db authHeader with
  | .error s => (s, db)
  | .ok u =>
    let r := putCourseHandler writeFails db u cid title description ip now
    (r.1, r.2.2)

/-- The empty database. -/
def db0 : DB := { users := [], courses := [], lessons := [], enrollments := [],
                  progress := [], audit_log := [] }

/-- Fixture: an instructor who owns course 1. -/
def userI : User := { id := 1, email := "i@x.com", password_hash := "h1", role := .instructor }

/-- Fixture: a student enrolled in course 1. -/
def userS : User := { id := 2, email := "s@x.com", password_hash := "h2", role := .student }

/-- Fixture: a second instructor who owns nothing. -/
def userJ : User := { id := 3, email := "j@x.com", password_hash := "h3", role := .instructor }

/-- Fixture database: three users, course 1 owned by user 1, lesson 1 in
course 1, student 2 enrolled in course 1, no progress, empty audit log. -/
def dbEx : DB :=
  { users := [userI, userS, userJ],
    courses := [{ id := 1, title := "Intro", description := "d", instructor_id := 1,
                  updated_at := 0 }],
    lessons := [{ id := 1, course_id := 1, title := "L1", content := "c", order_index := 0,
                  updated_at := 0 }],
    enrollments := [{ id := 1, student_id := 2, course_id := 1 }],
    progress := [],
    audit_log := [] }

/-- Fixture: the snapshot seen by the enrollment pre-check in the race —
identical to dbEx but with no enrollment rows yet. -/
def dbNoEnroll : DB := { dbEx with enrollments := [] }

/-- Fixture: dbEx after student 2 submits completed=true for lesson 1 at
time 1. -/
def progressDb1 : DB := (postProgressHandler false dbEx userS 1 true 1 "ip" 1).2.2

end LearningPlatform

namespace LearningPlatform

/-- find? over a mapped list when the map does not change the predicate's
verdict on any element: the found element is the image of the originally
found one. -/
theorem find?_stable_map {α : Type} (g : α → α) (pred : α → Bool)
    (hinv : ∀ x, pred (g x) = pred x) :
    ∀ l : List α, (l.map g).find? pred = (l.find? pred).map g
  | [] => rfl
  | x :: xs => by
    by_cases h : pred x = true
    · rw [List.map_cons, List.find?_cons_of_pos _ ((hinv x).trans h),
          List.find?_cons_of_pos _ h, Option.map_some']
    · rw [List.map_cons, List.find?_cons_of_neg, List.find?_cons_of_neg _ (by simpa using h),
          find?_stable_map g pred hinv xs]
      simpa using (hinv x).trans_ne h

/-- The audit writer never changes the domain tables, whether or not the
underlying write fails. -/
theorem domainState_auditLog (writeFails : Bool) (userId : Option Nat)
    (action resourceType : String) (resourceId : Option Nat) (ipAddress : String) (db : DB) :
    domainState (auditLog writeFails userId action resourceType resourceId ipAddress db) =
      domainState db := by
  unfold auditLog domainState; split <;> rfl

/-- Course lookup is unaffected by an audit write. -/
theorem findCourseById_auditLog (writeFails : Bool) (userId : Option Nat)
    (action resourceType : String) (resourceId : Option Nat) (ipAddress : String)
    (db : DB) (cid : Nat) :
    findCourseById (auditLog writeFails userId action resourceType resourceId ipAddress db) cid =
      findCourseById db cid := by
  unfold auditLog findCourseById; split <;> rfl

/-- Lesson lookup is unaffected by an audit write. -/
theorem findLessonById_auditLog (writeFails : Bool) (userId : Option Nat)
    (action resourceType : String) (resourceId : Option Nat) (ipAddress : String)
    (db : DB) (lid : Nat) :
    findLessonById (auditLog writeFails userId action resourceType resourceId ipAddress db) lid =
      findLessonById db lid := by
  unfold auditLog findLessonById; split <;> rfl

/-- Progress lookup is unaffected by an audit write. -/
theorem findProgress_auditLog (writeFails : Bool) (userId : Option Nat)
    (action resourceType : String) (resourceId : Option Nat) (ipAddress : String)
    (db : DB) (sid lid : Nat) :
    findProgress (auditLog writeFails userId action resourceType resourceId ipAddress db) sid lid =
      findProgress db sid lid := by
  unfold auditLog findProgress; split <;> rfl

/-- One rate-limiter step on an entry whose window has not expired:
no reset happens, the count goes up by one, and the request is rejected
exactly when the new count exceeds the ceiling. -/
theorem perClientRateLimit_inWindow (now rt c : Nat) (db : DB) (key : String)
    (hwin : ¬ now - rt > RATE_LIMIT_WINDOW_MS) :
    perClientRateLimit now (some { count := c, resetTime := rt }) db key =
      if c + 1 > RATE_LIMIT_MAX_REQUESTS then
        (some 429, { count := c + 1, resetTime := rt },
          auditLog false none "RATE_LIMIT_EXCEEDED" "request" none key db)
      else (none, { count := c + 1, resetTime := rt }, db) := by
  unfold perClientRateLimit
  simp only [if_neg hwin]

/-- Results of a run of same-timed requests starting from an in-window
entry with count c: request i (0-based) is admitted exactly when
c + 1 + i is within the ceiling. -/
theorem runLimiter_replicate (key : String) (t rt : Nat)
    (hwin : ¬ t - rt > RATE_LIMIT_WINDOW_MS) :
    ∀ (n c : Nat) (db : DB),
      (runLimiter key (List.replicate n t) (some { count := c, resetTime := rt }) db).1 =
        (List.range n).map (fun i => decide (c + 1 + i ≤ RATE_LIMIT_MAX_REQUESTS))
  | 0, c, db => rfl
  | n + 1, c, db => by
    rw [List.replicate_succ]
    show (let step := perClientRateLimit t (some { count := c, resetTime := rt }) db key
          let tail := runLimiter key (List.replicate n t) (some step.2.1) step.2.2
          (step.1.isNone :: tail.1, tail.2.1, tail.2.2)).1 = _
    rw [perClientRateLimit_inWindow t rt c db key hwin]
    by_cases hc : c + 1 > RATE_LIMIT_MAX_REQUESTS
    · simp only [if_pos hc]
      rw [List.range_succ_eq_map, List.map_cons, List.map_map]
      have htail := runLimiter_replicate key t rt hwin n (c + 1)
        (auditLog false none "RATE_LIMIT_EXCEEDED" "request" none key db)
      simp only [htail]
      congr 1
      · simp [Nat.not_le.mpr hc]
      · apply List.map_congr_left
        intro i _
        simp only [Function.comp_apply]
        have h2 : c + 1 + Nat.succ i = c + 1 + 1 + i := by omega
        rw [h2]
    · simp only [if_neg hc]
      rw [List.range_succ_eq_map, List.map_cons, List.map_map]
      have htail := runLimiter_replicate key t rt hwin n (c + 1) db
      simp only [htail]
      congr 1
      · simp [Nat.not_lt.mp hc]
      · apply List.map_congr_left
        intro i _
        simp only [Function.comp_apply]
        have h2 : c + 1 + Nat.succ i = c + 1 + 1 + i := by omega
        rw [h2]

/-- A rate-limiter step for a client with no map entry: a fresh entry is
created with window start now, the count becomes 1, and the request is
admitted. -/
theorem perClientRateLimit_fresh (now : Nat) (db : DB) (key : String) :
    perClientRateLimit now none db key = (none, { count := 1, resetTime := now }, db) := by
  unfold perClientRateLimit
  norm_num [RATE_LIMIT_MAX_REQUESTS]

/-- C4: the per-client rate limiter is an exact fixed window: an entry
whose window has expired (now minus the stored window start exceeds the
window duration) is reset to count 0 with window start now before the
increment, so that request is admitted with count 1; starting from no
entry, the i-th (1-based) of a burst of same-window requests is admitted
exactly when i is at most the ceiling of 100, so requests 1..100 are
admitted and the 101st and every later one in the window is rejected; a
rejected request answers 429 and appends an audit entry with null
user_id; an admitted request touches nothing. -/
theorem rate_limiter_fixed_window :
    (∀ (now : Nat) (d : LimiterData) (db : DB) (key : String),
      now - d.resetTime > RATE_LIMIT_WINDOW_MS →
      perClientRateLimit now (some d) db key =
        (none, { count := 1, resetTime := now }, db)) ∧
    (∀ (key : String) (t n : Nat) (db : DB),
      (runLimiter key (List.replicate n t) none db).1 =
        (List.range n).map (fun i => decide (i + 1 ≤ RATE_LIMIT_MAX_REQUESTS))) ∧
    (∀ (now c rt : Nat) (db : DB) (key : String), ¬ now - rt > RATE_LIMIT_WINDOW_MS →
      c + 1 > RATE_LIMIT_MAX_REQUESTS →
      perClientRateLimit now (some { count := c, resetTime := rt }) db key =
        (some 429, { count := c + 1, resetTime := rt },
          { db with audit_log := db.audit_log ++
             [{ user_id := none, action := "RATE_LIMIT_EXCEEDED", resource_type := "request",
                resource_id := none, ip_address := key }] })) ∧
    (∀ (now c rt : Nat) (db : DB) (key : String), ¬ now - rt > RATE_LIMIT_WINDOW_MS →
      c + 1 ≤ RATE_LIMIT_MAX_REQUESTS →
      perClientRateLimit now (some { count := c, resetTime := rt }) db key =
        (none, { count := c + 1, resetTime := rt }, db)) := by
  refine ⟨?_, ?_, ?_, ?_⟩
  · intro now d db key h
    unfold perClientRateLimit
    simp [h, RATE_LIMIT_MAX_REQUESTS]
  · intro key t n db
    cases n with
    | zero => rfl
    | succ m =>
      rw [List.replicate_succ]
      show (let step := perClientRateLimit t none db key
            let tail := runLimiter key (List.replicate m t) (some step.2.1) step.2.2
            (step.1.isNone :: tail.1, tail.2.1, tail.2.2)).1 = _
      rw [perClientRateLimit_fresh]
      have htail := runLimiter_replicate key t t (by omega) m 1 db
      simp only [htail]
      rw [List.range_succ_eq_map, List.map_cons, List.map_map]
      congr 1
      apply List.map_congr_left
      intro i _
      simp only [Function.comp_apply]
      rw [decide_eq_decide]
      omega
  · intro now c rt db key h1 h2
    rw [perClientRateLimit_inWindow now rt c db key h1, if_pos h2]
    unfold auditLog
    simp
  · intro now c rt db key h1 h2
    rw [perClientRateLimit_inWindow now rt c db key h1, if_neg (by omega)]

/-- Witness for C4 at concrete inputs. -/
theorem rate_limiter_fixed_window_witness :
    perClientRateLimit (RATE_LIMIT_WINDOW_MS + 1) (some { count := 7, resetTime := 0 }) db0 "c" =
      (none, { count := 1, resetTime := RATE_LIMIT_WINDOW_MS + 1 }, db0) ∧
    (runLimiter "c" (List.replicate 2 5) none db0).1 =
      (List.range 2).map (fun i => decide (i + 1 ≤ RATE_LIMIT_MAX_REQUESTS)) ∧
    perClientRateLimit 3 (some { count := 100, resetTime := 2 }) db0 "c" =
      (some 429, { count := 101, resetTime := 2 },
        { db0 with audit_log := db0.audit_log ++
           [{ user_id := none, action := "RATE_LIMIT_EXCEEDED", resource_type := "request",
              resource_id := none, ip_address := "c" }] }) ∧
    perClientRateLimit 3 (some { count := 10, resetTime := 2 }) db0 "c" =
      (none, { count := 11, resetTime := 2 }, db0) := by
  refine ⟨?_, ?_, ?_, ?_⟩
  · exact rate_limiter_fixed_window.1 (RATE_LIMIT_WINDOW_MS + 1)
      { count := 7, resetTime := 0 } db0 "c" (by norm_num)
  · exact rate_limiter_fixed_window.2.1 "c" 5 2 db0
  · exact rate_limiter_fixed_window.2.2.1 3 100 2 db0 "c"
      (by norm_num [RATE_LIMIT_WINDOW_MS]) (by norm_num [RATE_LIMIT_MAX_REQUESTS])
  · exact rate_limiter_fixed_window.2.2.2 3 10 2 db0 "c"
      (by norm_num [RATE_LIMIT_WINDOW_MS]) (by norm_num [RATE_LIMIT_MAX_REQUESTS])

/-- The role gate passes a loaded user whose role is in the allowed set. -/
theorem requireRole_pass (roles : List Role) (u : User) (h : roles.contains u.role = true) :
    requireRole roles (some u) = .ok u := by
  unfold requireRole
  simp
  simpa using h

/-- The role gate refuses with 403 a loaded user whose role is outside
the allowed set. -/
theorem requireRole_block (roles : List Role) (u : User) (h : roles.contains u.role = false) :
    requireRole roles (some u) = .error 403 := by
  unfold requireRole
  simp
  simpa using h

/-- C1: after token verification the pipeline re-loads the subject from
the users table by the token's subject id and every role decision is
taken on the freshly loaded role: the role claim embedded in the token
(the arbitrary nonempty string r below) does not enter the outcome, a
subject whose stored role is student is refused an instructor-only route
with 403 whatever the token claims, and a replayed token is authorized
according to whatever role the store currently records for the subject. -/
theorem authz_uses_fresh_role (verify : String → VerifyResult) (db : DB)
    (authHeader : Option String) (token : String) (payload : TokenPayload)
    (uid : Nat) (r : String) (u : User)
    (hTok : extractToken authHeader = some token)
    (hVer : verify token = .ok payload)
    (hUid : payload.userId = some uid) (hUid0 : uid ≠ 0)
    (hRole : payload.roleClaim = some r) (hR : r ≠ "")
    (hFind : findUserById db uid = some u) :
    authenticateToken verify db authHeader = .ok u ∧
    (∀ roles, authThenRole verify roles db authHeader = requireRole roles (some u)) ∧
    (u.role = Role.student → authThenRole verify [Role.instructor] db authHeader = .error 403) ∧
    (u.role = Role.instructor → authThenRole verify [Role.instructor] db authHeader = .ok u) := by
  have hu : (uid == 0) = false := by simpa using hUid0
  have hr : (r == "") = false := by simpa using hR
  have hauth : authenticateToken verify db authHeader = .ok u := by
    simp [authenticateToken, hTok, hVer, hUid, hRole, hu, hr, hFind]
  have hreq : ∀ roles, authThenRole verify roles db authHeader = requireRole roles (some u) := by
    intro roles
    simp only [authThenRole, hauth]
  refine ⟨hauth, hreq, ?_, ?_⟩
  · intro hst
    rw [hreq [Role.instructor]]
    exact requireRole_block _ _ (by rw [hst]; decide)
  · intro hinst
    rw [hreq [Role.instructor]]
    exact requireRole_pass _ _ (by rw [hinst]; decide)

/-- Witness for C1: a token whose embedded role claim says instructor but
whose subject is stored as a student is refused the instructor-only gate. -/
theorem authz_uses_fresh_role_witness :
    authenticateToken
      (fun _ => VerifyResult.ok { userId := some 2, roleClaim := some "instructor" })
      dbEx (some "Bearer t") = .ok userS ∧
    authThenRole
      (fun _ => VerifyResult.ok { userId := some 2, roleClaim := some "instructor" })
      [Role.instructor] dbEx (some "Bearer t") = .error 403 := by
  have h := authz_uses_fresh_role
    (fun _ => VerifyResult.ok { userId := some 2, roleClaim := some "instructor" })
    dbEx (some "Bearer t") "t" { userId := some 2, roleClaim := some "instructor" }
    2 "instructor" userS rfl rfl rfl (by decide) rfl (by decide) rfl
  exact ⟨h.1, h.2.2.1 rfl⟩

/-- C2 counterexample: a login attempt with an unknown email is an
authentication failure (401) after which the audit log is still empty —
no audit-log entry was written for this authentication failure. -/
theorem auth_failure_unaudited_cex :
    loginHandler (fun _ _ => false) false dbEx "ghost@x.com" "pw" "ip" = (401, dbEx) ∧
    dbEx.audit_log = [] := by
  exact ⟨rfl, rfl⟩

/-- C2 (amended): what the code actually audits.  Audited: a login
attempt that found the user but failed the password comparison
(LOGIN_FAILED), a rate-limit rejection (RATE_LIMIT_EXCEEDED with null
user_id), and a mutating action that passed all its checks
(COURSE_UPDATED here).  Not audited: a login attempt whose email is
unknown, a request whose token fails authentication (the route answers
401 with the database untouched), and a mutating request stopped by the
NotFound check (404 with the database untouched). -/
theorem audit_coverage (checkPw : String → String → Bool) (db : DB) :
    (∀ email pw ip, findUserByEmail db email = none →
      loginHandler checkPw false db email pw ip = (401, db)) ∧
    (∀ email pw ip u, findUserByEmail db email = some u →
      checkPw pw u.password_hash = false →
      loginHandler checkPw false db email pw ip =
        (401, { db with audit_log := db.audit_log ++
           [{ user_id := some u.id, action := "LOGIN_FAILED", resource_type := "user",
              resource_id := some u.id, ip_address := ip }] })) ∧
    (∀ (now c rt : Nat) (key : String), ¬ now - rt > RATE_LIMIT_WINDOW_MS →
      c + 1 > RATE_LIMIT_MAX_REQUESTS →
      (perClientRateLimit now (some { count := c, resetTime := rt }) db key).2.2.audit_log =
        db.audit_log ++
          [{ user_id := none, action := "RATE_LIMIT_EXCEEDED", resource_type := "request",
             resource_id := none, ip_address := key }]) ∧
    (∀ verify authHeader cid title description ip now,
      authenticateToken verify db authHeader = Except.error 401 →
      putCourseRoute verify false db authHeader cid title description ip now = (401, db)) ∧
    (∀ (u : User) cid title description ip now, findCourseById db cid = none →
      putCourseHandler false db u cid title description ip now = (404, none, db)) ∧
    (∀ (u : User) cid c title description ip now, findCourseById db cid = some c →
      c.instructor_id = u.id → (title.isNone && description.isNone) = false →
      (putCourseHandler false db u cid title description ip now).2.2.audit_log =
        db.audit_log ++
          [{ user_id := some u.id, action := "COURSE_UPDATED", resource_type := "course",
             resource_id := some cid, ip_address := ip }]) := by
  refine ⟨?_, ?_, ?_, ?_, ?_, ?_⟩
  · intro email pw ip h
    simp [loginHandler, h]
  · intro email pw ip u h1 h2
    simp [loginHandler, h1, h2, auditLog]
  · intro now c rt key h1 h2
    rw [perClientRateLimit_inWindow now rt c db key h1, if_pos h2]
    simp [auditLog]
  · intro verify authHeader cid title description ip now h
    simp [putCourseRoute, authThenRole, h]
  · intro u cid title description ip now h
    simp [putCourseHandler, h]
  · intro u cid c title description ip now h1 h2 h3
    simp [putCourseHandler, h1, h2, h3, auditLog]

/-- Witness for the amended C2 at concrete inputs. -/
theorem audit_coverage_witness :
    loginHandler (fun _ _ => false) false dbEx "ghost@x.com" "pw" "ip" = (401, dbEx) ∧
    loginHandler (fun _ _ => false) false dbEx "s@x.com" "pw" "ip" =
      (401, { dbEx with audit_log := dbEx.audit_log ++
         [{ user_id := some userS.id, action := "LOGIN_FAILED", resource_type := "user",
            resource_id := some userS.id, ip_address := "ip" }] }) ∧
    (perClientRateLimit 3 (some { count := 100, resetTime := 2 }) dbEx "c").2.2.audit_log =
      dbEx.audit_log ++
        [{ user_id := none, action := "RATE_LIMIT_EXCEEDED", resource_type := "request",
           resource_id := none, ip_address := "c" }] ∧
    putCourseRoute (fun _ => VerifyResult.invalidErr) false dbEx (some "Bearer t") 1
      (some "T") none "ip" 5 = (401, dbEx) ∧
    putCourseHandler false dbEx userI 99 (some "T") none "ip" 5 = (404, none, dbEx) ∧
    (putCourseHandler false dbEx userI 1 (some "T") none "ip" 5).2.2.audit_log =
      dbEx.audit_log ++
        [{ user_id := some userI.id, action := "COURSE_UPDATED", resource_type := "course",
           resource_id := some 1, ip_address := "ip" }] := by
  refine ⟨(audit_coverage (fun _ _ => false) dbEx).1 "ghost@x.com" "pw" "ip" rfl,
          (audit_coverage (fun _ _ => false) dbEx).2.1 "s@x.com" "pw" "ip" userS rfl rfl,
          (audit_coverage (fun _ _ => false) dbEx).2.2.1 3 100 2 "c"
            (by norm_num [RATE_LIMIT_WINDOW_MS]) (by norm_num [RATE_LIMIT_MAX_REQUESTS]),
          (audit_coverage (fun _ _ => false) dbEx).2.2.2.1
            (fun _ => VerifyResult.invalidErr) (some "Bearer t") 1 (some "T") none "ip" 5 rfl,
          (audit_coverage (fun _ _ => false) dbEx).2.2.2.2.1 userI 99 (some "T") none "ip" 5 rfl,
          (audit_coverage (fun _ _ => false) dbEx).2.2.2.2.2 userI 1
            { id := 1, title := "Intro", description := "d", instructor_id := 1, updated_at := 0 }
            (some "T") none "ip" 5 rfl rfl rfl⟩

/-- C3: evaluation at the failing input.  The pre-check snapshot
(dbNoEnroll) holds no enrollment for (student 2, course 1), so the
pre-check passes; by INSERT time a concurrent request has created that
enrollment (the INSERT runs against dbEx), the storage engine raises its
uniqueness-constraint violation, and the handler's generic catch block
answers 500 — not the Conflict 409 the specification requires for this
path.  Sequentially (both snapshots dbEx) the pre-check still yields 409. -/
theorem enrollment_conflict_lost_to_500 :
    (createEnrollmentHandler false dbNoEnroll dbEx userS 1 "ip" 9).1 = 500 ∧
    (createEnrollmentHandler false dbEx dbEx userS 1 "ip" 9).1 = 409 ∧
    (500 : Nat) ≠ 409 := by
  exact ⟨rfl, rfl, by decide⟩

/-- C5 counterexample: instructor 3 owns nothing; a PUT or DELETE on
course 1 (owned by instructor 1) answers 403 while the same request on
the absent course 99 answers 404 — the two statuses differ, so the
response status does reveal whether the course exists. -/
theorem ownership_status_leak_cex :
    (putCourseHandler false dbEx userJ 1 (some "T") none "ip" 5).1 = 403 ∧
    (putCourseHandler false dbEx userJ 99 (some "T") none "ip" 5).1 = 404 ∧
    (deleteCourseHandler false dbEx userJ 1 "ip").1 = 403 ∧
    (deleteCourseHandler false dbEx userJ 99 "ip").1 = 404 ∧
    (403 : Nat) ≠ 404 := by
  exact ⟨rfl, rfl, rfl, rfl, by decide⟩

/-- C5 (amended): for course PUT and DELETE the NotFound check strictly
precedes the ownership check: an absent course answers 404 regardless of
the requester, and an existing course owned by another instructor
answers 403; in both cases the database is untouched.  Because the two
statuses differ (403 vs 404), a forbidden instructor can distinguish an
existing course from an absent one. -/
theorem course_notfound_precedes_ownership (f : Bool) (db : DB) (u : User)
    (cid : Nat) (title description : Option String) (ip : String) (now : Nat) :
    (findCourseById db cid = none →
      putCourseHandler f db u cid title description ip now = (404, none, db) ∧
      deleteCourseHandler f db u cid ip = (404, db)) ∧
    (∀ c, findCourseById db cid = some c → c.instructor_id ≠ u.id →
      putCourseHandler f db u cid title description ip now = (403, none, db) ∧
      deleteCourseHandler f db u cid ip = (403, db)) := by
  constructor
  · intro h
    exact ⟨by simp [putCourseHandler, h], by simp [deleteCourseHandler, h]⟩
  · intro c hc hown
    have hbne : (c.instructor_id != u.id) = true := by simpa using hown
    exact ⟨by simp [putCourseHandler, hc, hbne], by simp [deleteCourseHandler, hc, hbne]⟩

/-- Witness for the amended C5 at concrete inputs. -/
theorem course_notfound_precedes_ownership_witness :
    (putCourseHandler false dbEx userJ 99 (some "T") none "ip" 5 = (404, none, dbEx) ∧
     deleteCourseHandler false dbEx userJ 99 "ip" = (404, dbEx)) ∧
    (putCourseHandler false dbEx userJ 1 (some "T") none "ip" 5 = (403, none, dbEx) ∧
     deleteCourseHandler false dbEx userJ 1 "ip" = (403, dbEx)) := by
  exact ⟨(course_notfound_precedes_ownership false dbEx userJ 99 (some "T") none "ip" 5).1 rfl,
         (course_notfound_precedes_ownership false dbEx userJ 1 (some "T") none "ip" 5).2
           { id := 1, title := "Intro", description := "d", instructor_id := 1, updated_at := 0 }
           rfl (by decide)⟩

/-- An audit write never changes the enrollments table. -/
theorem auditLog_enrollments (writeFails : Bool) (userId : Option Nat)
    (action resourceType : String) (resourceId : Option Nat) (ipAddress : String) (db : DB) :
    (auditLog writeFails userId action resourceType resourceId ipAddress db).enrollments =
      db.enrollments := by
  unfold auditLog; split <;> rfl

/-- An audit write never changes the progress table. -/
theorem auditLog_progress (writeFails : Bool) (userId : Option Nat)
    (action resourceType : String) (resourceId : Option Nat) (ipAddress : String) (db : DB) :
    (auditLog writeFails userId action resourceType resourceId ipAddress db).progress =
      db.progress := by
  unfold auditLog; split <;> rfl

/-- Enrollment lookup is unaffected by an audit write. -/
theorem findEnrollment_auditLog (writeFails : Bool) (userId : Option Nat)
    (action resourceType : String) (resourceId : Option Nat) (ipAddress : String)
    (db : DB) (sid cid : Nat) :
    findEnrollment (auditLog writeFails userId action resourceType resourceId ipAddress db)
        sid cid = findEnrollment db sid cid := by
  unfold auditLog findEnrollment; split <;> rfl

/-- The progress UPDATE leaves every row's (student_id, lesson_id) key
unchanged, so the upsert's key predicate is stable under it. -/
theorem setProgressRow_pred (completed : Bool) (now sid lid : Nat) (x : Progress) :
    ((setProgressRow completed now sid lid x).student_id == sid &&
     (setProgressRow completed now sid lid x).lesson_id == lid) =
      (x.student_id == sid && x.lesson_id == lid) := by
  unfold setProgressRow; split <;> rfl

/-- One call of the progress upsert on a database that already holds a
row for (student, lesson): the row is updated in place (completed set,
completed_at stamped with now when completed and cleared otherwise), the
reloaded row is returned, and the resulting database is the updated one
plus the audit write. -/
theorem postProgress_update_branch (f : Bool) (db : DB) (u : User) (lid : Nat)
    (completed : Bool) (now : Nat) (ip : String) (nid : Nat)
    (lesson : Lesson) (e : Enrollment) (p : Progress)
    (hl : findLessonById db lid = some lesson)
    (he : findEnrollment db u.id lesson.course_id = some e)
    (hp : findProgress db u.id lid = some p) :
    (postProgressHandler f db u lid completed now ip nid).2.1 =
      some { p with completed := completed,
                    completed_at := if completed then some now else none } ∧
    (postProgressHandler f db u lid completed now ip nid).2.2 =
      auditLog f (some u.id) "PROGRESS_UPDATED" "progress" (some p.id) ip
        { db with progress := db.progress.map (setProgressRow completed now u.id lid) } := by
  have hfp : db.progress.find? (fun q => q.student_id == u.id && q.lesson_id == lid) =
      some p := by simpa [findProgress] using hp
  have hpred : (p.student_id == u.id && p.lesson_id == lid) = true := by
    have hps := List.find?_some hfp
    simpa using hps
  have hmap : findProgress
      { db with progress := db.progress.map (setProgressRow completed now u.id lid) }
      u.id lid = some (setProgressRow completed now u.id lid p) := by
    show (db.progress.map (setProgressRow completed now u.id lid)).find?
        (fun q => q.student_id == u.id && q.lesson_id == lid) = _
    rw [find?_stable_map _ _ (fun x => setProgressRow_pred completed now u.id lid x), hfp]
    rfl
  have hrow : setProgressRow completed now u.id lid p =
      { p with completed := completed,
               completed_at := if completed then some now else none } := by
    unfold setProgressRow
    rw [if_pos hpred]
  constructor
  · simp only [postProgressHandler, hl, he, hp, findProgress_auditLog, hmap, hrow]
  · simp only [postProgressHandler, hl, he, hp]

/-- C6 counterexample: student 2 submits completed=true for lesson 1 at
time 1 and again at time 2; the second, identical request re-stamps
completed_at, so the two observable progress states differ — the
repeated identical transition is not a no-op. -/
theorem progress_upsert_restamps_cex :
    (postProgressHandler false dbEx userS 1 true 1 "ip" 1).2.1 =
      some { id := 1, student_id := 2, lesson_id := 1, completed := true,
             completed_at := some 1 } ∧
    (postProgressHandler false progressDb1 userS 1 true 2 "ip" 7).2.1 =
      some { id := 1, student_id := 2, lesson_id := 1, completed := true,
             completed_at := some 2 } ∧
    (postProgressHandler false dbEx userS 1 true 1 "ip" 1).2.1 ≠
      (postProgressHandler false progressDb1 userS 1 true 2 "ip" 7).2.1 := by
  exact ⟨rfl, rfl, by decide⟩

/-- C6 (amended): the progress upsert keyed by (studentId, lessonId) is
idempotent only up to the completion timestamp: re-submitting
completed=true re-stamps completed_at with the later submission time (so
the repeated transition is a no-op exactly when the two submissions
carry the same timestamp; the row's identity, key, and completed flag
are unchanged either way), and submitting completed=false after
completed=true clears completed_at to null even though it held a prior
value. -/
theorem progress_upsert_restamp (f : Bool) (db : DB) (u : User) (lid : Nat)
    (now now2 : Nat) (ip : String) (n1 n2 : Nat)
    (lesson : Lesson) (e : Enrollment) (p : Progress)
    (hl : findLessonById db lid = some lesson)
    (he : findEnrollment db u.id lesson.course_id = some e)
    (hp : findProgress db u.id lid = some p) :
    (postProgressHandler f db u lid true now ip n1).2.1 =
      some { p with completed := true, completed_at := some now } ∧
    (postProgressHandler f (postProgressHandler f db u lid true now ip n1).2.2
        u lid true now2 ip n2).2.1 =
      some { p with completed := true, completed_at := some now2 } ∧
    (postProgressHandler f (postProgressHandler f db u lid true now ip n1).2.2
        u lid false now2 ip n2).2.1 =
      some { p with completed := false, completed_at := none } := by
  have hstep := postProgress_update_branch f db u lid true now ip n1 lesson e p hl he hp
  have hdb1 := hstep.2
  have hl1 : findLessonById (postProgressHandler f db u lid true now ip n1).2.2 lid =
      some lesson := by
    rw [hdb1, findLessonById_auditLog]
    exact hl
  have he1 : findEnrollment (postProgressHandler f db u lid true now ip n1).2.2 u.id
      lesson.course_id = some e := by
    rw [hdb1, findEnrollment_auditLog]
    exact he
  have hp1 : findProgress (postProgressHandler f db u lid true now ip n1).2.2 u.id lid =
      some { p with completed := true, completed_at := some now } := by
    rw [hdb1]
    have hfp : db.progress.find? (fun q => q.student_id == u.id && q.lesson_id == lid) =
        some p := by simpa [findProgress] using hp
    have hpred : (p.student_id == u.id && p.lesson_id == lid) = true := by
      have hps := List.find?_some hfp
      simpa using hps
    show findProgress (auditLog f (some u.id) "PROGRESS_UPDATED" "progress" (some p.id) ip
        { db with progress := db.progress.map (setProgressRow true now u.id lid) }) u.id lid = _
    rw [findProgress_auditLog]
    show (db.progress.map (setProgressRow true now u.id lid)).find?
        (fun q => q.student_id == u.id && q.lesson_id == lid) = _
    rw [find?_stable_map _ _ (fun x => setProgressRow_pred true now u.id lid x), hfp]
    show some (setProgressRow true now u.id lid p) = _
    unfold setProgressRow
    rw [if_pos hpred]
    rfl
  have h2 := postProgress_update_branch f (postProgressHandler f db u lid true now ip n1).2.2
    u lid true now2 ip n2 lesson e _ hl1 he1 hp1
  have h3 := postProgress_update_branch f (postProgressHandler f db u lid true now ip n1).2.2
    u lid false now2 ip n2 lesson e _ hl1 he1 hp1
  exact ⟨by simpa using hstep.1, by simpa using h2.1, by simpa using h3.1⟩

/-- Witness for the amended C6 at concrete inputs. -/
theorem progress_upsert_restamp_witness :
    (postProgressHandler false progressDb1 userS 1 true 5 "ip" 9).2.1 =
      some { id := 1, student_id := 2, lesson_id := 1, completed := true,
             completed_at := some 5 } ∧
    (postProgressHandler false (postProgressHandler false progressDb1 userS 1 true 5 "ip" 9).2.2
        userS 1 true 6 "ip" 9).2.1 =
      some { id := 1, student_id := 2, lesson_id := 1, completed := true,
             completed_at := some 6 } ∧
    (postProgressHandler false (postProgressHandler false progressDb1 userS 1 true 5 "ip" 9).2.2
        userS 1 false 6 "ip" 9).2.1 =
      some { id := 1, student_id := 2, lesson_id := 1, completed := false,
             completed_at := none } := by
  exact progress_upsert_restamp false progressDb1 userS 1 5 6 "ip" 9 9
    { id := 1, course_id := 1, title := "L1", content := "c", order_index := 0, updated_at := 0 }
    { id := 1, student_id := 2, course_id := 1 }
    { id := 1, student_id := 2, lesson_id := 1, completed := true, completed_at := some 1 }
    rfl rfl rfl

/-- C7: a Course or Lesson update accepts any nonempty subset of the
mutable fields (the request proceeds to a 200 response), while a request
supplying zero mutable fields is rejected with the 400 no-op validation
error and the database — the stored entity and its updated_at included —
is left exactly as it was. -/
theorem update_rejects_empty_field_set (f : Bool) (db : DB) (u : User) (ip : String) (now : Nat) :
    (∀ cid c, findCourseById db cid = some c → c.instructor_id = u.id →
      (putCourseHandler f db u cid none none ip now = (400, none, db) ∧
       ∀ title description : Option String, (title.isNone && description.isNone) = false →
         (putCourseHandler f db u cid title description ip now).1 = 200)) ∧
    (∀ lid l c, findLessonById db lid = some l → findCourseById db l.course_id = some c →
      c.instructor_id = u.id →
      (putLessonHandler f db u lid none none none ip now = (400, none, db) ∧
       ∀ (title content : Option String) (oi : Option Nat),
         (title.isNone && (content.isNone && oi.isNone)) = false →
         (putLessonHandler f db u lid title content oi ip now).1 = 200)) := by
  constructor
  · intro cid c hc hown
    have hbne : (c.instructor_id != u.id) = false := by simp [hown]
    constructor
    · simp [putCourseHandler, hc, hbne]
    · intro title description hfields
      simp [putCourseHandler, hc, hbne, hfields]
  · intro lid l c hl hc hown
    have hbne : (c.instructor_id != u.id) = false := by simp [hown]
    constructor
    · simp [putLessonHandler, hl, hc, hbne]
    · intro title content oi hfields
      have hprop : ¬(title = none ∧ content = none ∧ oi = none) := by
        have h0 := hfields
        simp [Option.isSome_iff_ne_none] at h0
        rintro ⟨h1, h2, h3⟩
        exact (h0 h1 h2) h3
      simp [putLessonHandler, hl, hc, hbne, and_assoc, hprop]

/-- Witness for C7 at concrete inputs. -/
theorem update_rejects_empty_field_set_witness :
    (putCourseHandler false dbEx userI 1 none none "ip" 5 = (400, none, dbEx) ∧
     (putCourseHandler false dbEx userI 1 (some "T") none "ip" 5).1 = 200) ∧
    (putLessonHandler false dbEx userI 1 none none none "ip" 5 = (400, none, dbEx) ∧
     (putLessonHandler false dbEx userI 1 none none (some 4) "ip" 5).1 = 200) := by
  have hc := (update_rejects_empty_field_set false dbEx userI "ip" 5).1 1
    { id := 1, title := "Intro", description := "d", instructor_id := 1, updated_at := 0 } rfl rfl
  have hles := (update_rejects_empty_field_set false dbEx userI "ip" 5).2 1
    { id := 1, course_id := 1, title := "L1", content := "c", order_index := 0, updated_at := 0 }
    { id := 1, title := "Intro", description := "d", instructor_id := 1, updated_at := 0 }
    rfl rfl rfl
  exact ⟨⟨hc.1, hc.2 (some "T") none rfl⟩, ⟨hles.1, hles.2 none none (some 4) rfl⟩⟩

/-- The progress UPDATE preserves the completed/completed_at invariant
of any row it touches. -/
theorem setProgressRow_inv (c : Bool) (now sid lid : Nat) (x : Progress)
    (hx : progressInvariant x) : progressInvariant (setProgressRow c now sid lid x) := by
  unfold setProgressRow
  split
  · unfold progressInvariant
    cases c <;> rfl
  · exact hx

/-- One progress-upsert call keeps the completed/completed_at invariant
holding for every row of the progress table. -/
theorem postProgress_inv_step (f : Bool) (ip : String) (db : DB) (u : User)
    (lid : Nat) (c : Bool) (now nid : Nat)
    (hinv : ∀ p ∈ db.progress, progressInvariant p) :
    ∀ p ∈ (postProgressHandler f db u lid c now ip nid).2.2.progress, progressInvariant p := by
  intro q hq
  unfold postProgressHandler at hq
  split at hq
  · exact hinv q hq
  · split at hq
    · exact hinv q hq
    · split at hq
      · rw [auditLog_progress] at hq
        simp only [List.mem_map] at hq
        obtain ⟨x, hx, rfl⟩ := hq
        exact setProgressRow_inv c now u.id lid x (hinv x hx)
      · rw [auditLog_progress] at hq
        simp only [List.mem_append, List.mem_singleton] at hq
        rcases hq with hq | rfl
        · exact hinv q hq
        · unfold progressInvariant
          cases c <;> rfl

/-- C8: every progress row produced or modified by the upsert satisfies
the data-model invariant that completed_at is non-null exactly when
completed is true, and any sequence of upserts preserves the invariant
across the whole table. -/
theorem progress_rows_invariant (f : Bool) (ip : String) :
    (∀ (db : DB) (u : User) (lid : Nat) (c : Bool) (now nid : Nat),
      (∀ p ∈ db.progress, progressInvariant p) →
      ∀ p ∈ (postProgressHandler f db u lid c now ip nid).2.2.progress, progressInvariant p) ∧
    (∀ (ops : List ProgressOp) (db : DB),
      (∀ p ∈ db.progress, progressInvariant p) →
      ∀ p ∈ (applyProgressOps f ip ops db).progress, progressInvariant p) := by
  constructor
  · intro db u lid c now nid hinv
    exact postProgress_inv_step f ip db u lid c now nid hinv
  · intro ops
    induction ops with
    | nil => intro db hinv; exact hinv
    | cons op rest ih =>
      intro db hinv
      exact ih _ (postProgress_inv_step f ip db op.user op.lesson_id op.completed op.now
        op.newId hinv)

/-- Witness for C8: the row written by a concrete upsert satisfies the
invariant. -/
theorem progress_rows_invariant_witness :
    progressInvariant { id := 1, student_id := 2, lesson_id := 1, completed := true,
                        completed_at := some 1 } := by
  exact (progress_rows_invariant false "ip").1 dbEx userS 1 true 1 1 (by decide)
    { id := 1, student_id := 2, lesson_id := 1, completed := true, completed_at := some 1 }
    (by decide)

/-- C9: a failure of the underlying audit write is caught inside
auditLog, which always returns; the write — failing or not — never
touches the domain tables, and for every handler the response status,
the returned payload, and the resulting domain entity state are
identical whether the audit write fails (first argument true) or
succeeds (false). -/
theorem audit_failure_never_affects_outcome :
    (∀ (userId : Option Nat) (action resourceType : String) (resourceId : Option Nat)
       (ipAddress : String) (db : DB),
      domainState (auditLog true userId action resourceType resourceId ipAddress db) =
        domainState db) ∧
    (∀ (checkPw : String → String → Bool) (db : DB) (email pw ip : String),
      (loginHandler checkPw true db email pw ip).1 =
        (loginHandler checkPw false db email pw ip).1 ∧
      domainState (loginHandler checkPw true db email pw ip).2 =
        domainState (loginHandler checkPw false db email pw ip).2) ∧
    (∀ (db : DB) (u : User) (cid : Nat) (title description : Option String)
       (ip : String) (now : Nat),
      (putCourseHandler true db u cid title description ip now).1 =
        (putCourseHandler false db u cid title description ip now).1 ∧
      (putCourseHandler true db u cid title description ip now).2.1 =
        (putCourseHandler false db u cid title description ip now).2.1 ∧
      domainState (putCourseHandler true db u cid title description ip now).2.2 =
        domainState (putCourseHandler false db u cid title description ip now).2.2) ∧
    (∀ (db : DB) (u : User) (cid : Nat) (ip : String),
      (deleteCourseHandler true db u cid ip).1 = (deleteCourseHandler false db u cid ip).1 ∧
      domainState (deleteCourseHandler true db u cid ip).2 =
        domainState (deleteCourseHandler false db u cid ip).2) ∧
    (∀ (db : DB) (u : User) (lid : Nat) (title content : Option String) (oi : Option Nat)
       (ip : String) (now : Nat),
      (putLessonHandler true db u lid title content oi ip now).1 =
        (putLessonHandler false db u lid title content oi ip now).1 ∧
      (putLessonHandler true db u lid title content oi ip now).2.1 =
        (putLessonHandler false db u lid title content oi ip now).2.1 ∧
      domainState (putLessonHandler true db u lid title content oi ip now).2.2 =
        domainState (putLessonHandler false db u lid title content oi ip now).2.2) ∧
    (∀ (checkDb insertDb : DB) (u : User) (cid : Nat) (ip : String) (nid : Nat),
      (createEnrollmentHandler true checkDb insertDb u cid ip nid).1 =
        (createEnrollmentHandler false checkDb insertDb u cid ip nid).1 ∧
      domainState (createEnrollmentHandler true checkDb insertDb u cid ip nid).2 =
        domainState (createEnrollmentHandler false checkDb insertDb u cid ip nid).2) ∧
    (∀ (db : DB) (u : User) (eid : Nat) (ip : String),
      (deleteEnrollmentHandler true db u eid ip).1 =
        (deleteEnrollmentHandler false db u eid ip).1 ∧
      domainState (deleteEnrollmentHandler true db u eid ip).2 =
        domainState (deleteEnrollmentHandler false db u eid ip).2) ∧
    (∀ (db : DB) (u : User) (lid : Nat) (c : Bool) (now : Nat) (ip : String) (nid : Nat),
      (postProgressHandler true db u lid c now ip nid).1 =
        (postProgressHandler false db u lid c now ip nid).1 ∧
      (postProgressHandler true db u lid c now ip nid).2.1 =
        (postProgressHandler false db u lid c now ip nid).2.1 ∧
      domainState (postProgressHandler true db u lid c now ip nid).2.2 =
        domainState (postProgressHandler false db u lid c now ip nid).2.2) := by
  refine ⟨?_, ?_, ?_, ?_, ?_, ?_, ?_, ?_⟩
  · intro userId action resourceType resourceId ipAddress db
    exact domainState_auditLog true userId action resourceType resourceId ipAddress db
  · intro checkPw db email pw ip
    cases h : findUserByEmail db email with
    | none => simp [loginHandler, h]
    | some user =>
      by_cases h2 : checkPw pw user.password_hash = true
      · simp [loginHandler, h, h2, domainState_auditLog]
      · simp [loginHandler, h, h2, domainState_auditLog]
  · intro db u cid title description ip now
    cases hc : findCourseById db cid with
    | none => simp [putCourseHandler, hc]
    | some c =>
      by_cases h1 : (c.instructor_id != u.id) = true
      · simp [putCourseHandler, hc, h1]
      · by_cases h2 : (title.isNone && description.isNone) = true
        · simp [putCourseHandler, hc, h1, h2]
        · simp [putCourseHandler, hc, h1, h2, findCourseById_auditLog, domainState_auditLog]
  · intro db u cid ip
    cases hc : findCourseById db cid with
    | none => simp [deleteCourseHandler, hc]
    | some c =>
      by_cases h1 : (c.instructor_id != u.id) = true
      · simp [deleteCourseHandler, hc, h1]
      · simp [deleteCourseHandler, hc, h1, domainState_auditLog]
  · intro db u lid title content oi ip now
    cases hl : findLessonById db lid with
    | none => simp [putLessonHandler, hl]
    | some l =>
      cases hc : findCourseById db l.course_id with
      | none => simp [putLessonHandler, hl, hc]
      | some c =>
        by_cases h1 : (c.instructor_id != u.id) = true
        · simp [putLessonHandler, hl, hc, h1]
        · by_cases h2 : (title = none ∧ content = none) ∧ oi = none
          · simp [putLessonHandler, hl, hc, h1, h2]
          · simp [putLessonHandler, hl, hc, h1, h2, findLessonById_auditLog, domainState_auditLog]
  · intro checkDb insertDb u cid ip nid
    cases hc : findCourseById checkDb cid with
    | none => simp [createEnrollmentHandler, hc]
    | some c =>
      cases he : findEnrollment checkDb u.id cid with
      | some e => simp [createEnrollmentHandler, hc, he]
      | none =>
        cases hins : insertEnrollmentUnique insertDb
            { id := nid, student_id := u.id, course_id := cid } with
        | error msg => simp [createEnrollmentHandler, hc, he, hins]
        | ok db1 => simp [createEnrollmentHandler, hc, he, hins, domainState_auditLog]
  · intro db u eid ip
    cases hfind : db.enrollments.find? (fun e => e.id == eid && e.student_id == u.id) with
    | none => simp [deleteEnrollmentHandler, hfind]
    | some e => simp [deleteEnrollmentHandler, hfind, domainState_auditLog]
  · intro db u lid c now ip nid
    cases hl : findLessonById db lid with
    | none => simp [postProgressHandler, hl]
    | some lesson =>
      cases he : findEnrollment db u.id lesson.course_id with
      | none => simp [postProgressHandler, hl, he]
      | some e =>
        cases hp : findProgress db u.id lid with
        | some existing =>
          simp [postProgressHandler, hl, he, hp, findProgress_auditLog, domainState_auditLog]
        | none =>
          simp [postProgressHandler, hl, he, hp, findProgress_auditLog, domainState_auditLog]

/-- C10: the enrollment-deletion handler looks the row up by id and
student_id together, so a request naming another student's enrollment
and a request naming a nonexistent id take the same branch: both answer
404 with the database untouched; the status is never 403 (it is always
404 or 204); and a row is removed only if it carries the requested id
and the requester owns the row with that id — under the primary-key
uniqueness of ids, every removed row belongs to the requesting student. -/
theorem enrollment_delete_scoped (f : Bool) (db : DB) (u : User) (eid : Nat) (ip : String) :
    ((∀ e ∈ db.enrollments, ¬(e.id = eid ∧ e.student_id = u.id)) →
      deleteEnrollmentHandler f db u eid ip = (404, db)) ∧
    ((deleteEnrollmentHandler f db u eid ip).1 = 404 ∨
     (deleteEnrollmentHandler f db u eid ip).1 = 204) ∧
    (∀ r ∈ db.enrollments, r ∉ (deleteEnrollmentHandler f db u eid ip).2.enrollments →
      r.id = eid ∧ ∃ e ∈ db.enrollments, e.id = eid ∧ e.student_id = u.id) ∧
    ((∀ a ∈ db.enrollments, ∀ b ∈ db.enrollments, a.id = b.id → a = b) →
      ∀ r ∈ db.enrollments, r ∉ (deleteEnrollmentHandler f db u eid ip).2.enrollments →
      r.student_id = u.id) := by
  have hscope : ∀ r ∈ db.enrollments, r ∉ (deleteEnrollmentHandler f db u eid ip).2.enrollments →
      r.id = eid ∧ ∃ e ∈ db.enrollments, e.id = eid ∧ e.student_id = u.id := by
    intro r hr hnot
    cases hfind : db.enrollments.find? (fun e => e.id == eid && e.student_id == u.id) with
    | none =>
      exfalso
      apply hnot
      have : (deleteEnrollmentHandler f db u eid ip).2.enrollments = db.enrollments := by
        simp [deleteEnrollmentHandler, hfind]
      rw [this]
      exact hr
    | some e =>
      have hpred := List.find?_some hfind
      have hmem := List.mem_of_find?_eq_some hfind
      simp only [Bool.and_eq_true, beq_iff_eq] at hpred
      have henr : (deleteEnrollmentHandler f db u eid ip).2.enrollments =
          db.enrollments.filter (fun q => q.id != eid) := by
        simp [deleteEnrollmentHandler, hfind, auditLog_enrollments]
      constructor
      · by_contra hne
        apply hnot
        rw [henr]
        exact List.mem_filter.mpr ⟨hr, by simpa using hne⟩
      · exact ⟨e, hmem, hpred.1, hpred.2⟩
  refine ⟨?_, ?_, hscope, ?_⟩
  · intro h
    have hnone : db.enrollments.find? (fun e => e.id == eid && e.student_id == u.id) = none := by
      rw [List.find?_eq_none]
      intro e he
      simpa using h e he
    simp [deleteEnrollmentHandler, hnone]
  · cases hfind : db.enrollments.find? (fun e => e.id == eid && e.student_id == u.id) with
    | none =>
      left
      simp [deleteEnrollmentHandler, hfind]
    | some e =>
      right
      simp [deleteEnrollmentHandler, hfind]
  · intro huniq r hr hnot
    obtain ⟨hid, e, hmem, heid, hstu⟩ := hscope r hr hnot
    have : r = e := huniq r hr e hmem (by rw [hid, heid])
    rw [this]
    exact hstu

/-- Witness for C10 at concrete inputs: instructor 1 does not own
enrollment 1 (it belongs to student 2), so the delete answers 404 and
changes nothing; and under the fixture's unique ids, the row student 2
removes by deleting enrollment 1 is their own. -/
theorem enrollment_delete_scoped_witness :
    deleteEnrollmentHandler false dbEx userI 1 "ip" = (404, dbEx) ∧
    ({ id := 1, student_id := 2, course_id := 1 } : Enrollment).student_id = userS.id := by
  constructor
  · exact (enrollment_delete_scoped false dbEx userI 1 "ip").1 (by decide)
  · exact (enrollment_delete_scoped false dbEx userS 1 "ip").2.2.2 (by decide)
      { id := 1, student_id := 2, course_id := 1 } (by decide) (by decide)

end LearningPlatform
